import Mathlib

/-!
Verification of `DummyEmbeddingDimensionalityReductionModel`
(src/playground/mirco_nani/embeddings_pipelines/src/embeddings_pipelines/models/embedding_dimensionality_reduction_models.py).

The class stores one attribute, `reduced_embedding_size`, set by
`__init__`; `predict` returns `embedding[:self.reduced_embedding_size]`
(a Python slice); `build` has body `pass`; `dispose` is declared with an
empty parameter list (it omits `self`), so calling it on an instance
raises a `TypeError` before any body runs.

Embeddings are modelled as `List α` (the source treats the numpy array
as an ordered 1-D sequence and never inspects element values), the
attribute as an unrestricted `Int` (Python integers; the constructor
performs no validation), and the slice `l[:k]` by its Python semantics:
a negative stop counts from the end, and the effective stop is clamped
to the interval from `0` to `len`.
-/

/-- Effective stop index of the Python slice `l[:k]` on a sequence of
length `len`: a negative `k` is first shifted by `len` (it counts from
the end), then the result is clamped to lie between `0` and `len`.
`Int.toNat` realises the clamping at `0`. -/
def pySliceStop (len : Nat) (k : Int) : Nat :=
  (min (if k < 0 then k + len else k) (len : Int)).toNat

/-- State of a `DummyEmbeddingDimensionalityReductionModel` instance:
the single attribute `reduced_embedding_size` assigned by `__init__`.
No other attribute is ever assigned anywhere in the class. -/
structure DummyEmbeddingDimensionalityReductionModel where
  reduced_embedding_size : Int

namespace DummyEmbeddingDimensionalityReductionModel

/-- Source method `predict`: `return embedding[:self.reduced_embedding_size]`. -/
def predict (m : DummyEmbeddingDimensionalityReductionModel)
    (embedding : List α) : List α :=
  embedding.take (pySliceStop embedding.length m.reduced_embedding_size)

/-- Source method `build`: its body is `pass`, so it assigns no
attribute; the state after the call is the state before it. -/
def build (m : DummyEmbeddingDimensionalityReductionModel) :
    DummyEmbeddingDimensionalityReductionModel := m

/-- Effect of a `predict` call on the instance state: the method body
reads `self.reduced_embedding_size` but assigns no attribute. -/
def predictState (m : DummyEmbeddingDimensionalityReductionModel) :
    DummyEmbeddingDimensionalityReductionModel := m

/-- Number of parameters in the source declaration `def dispose():` —
it omits `self`. -/
def dispose_param_count : Nat := 0

/-- Number of positional arguments Python passes when `dispose` is
called on an instance as `m.dispose()`: the bound method receives the
instance itself as an implicit first argument. -/
def bound_call_arg_count : Nat := 1

/-- Calling `dispose` on an instance: Python raises a `TypeError` when
the bound call passes more positional arguments than the function
declares; the body (`pass`) never runs. The instance state is returned
unchanged alongside the outcome, since no attribute is assigned. -/
def callDispose (m : DummyEmbeddingDimensionalityReductionModel) :
    DummyEmbeddingDimensionalityReductionModel × Except String Unit :=
  (m, if bound_call_arg_count ≤ dispose_param_count then Except.ok ()
      else Except.error "TypeError")

end DummyEmbeddingDimensionalityReductionModel

open DummyEmbeddingDimensionalityReductionModel

/-- Taking `min k (length l)` elements is the same as taking `k`. -/
theorem take_min_len (k : Nat) (l : List α) : l.take (min k l.length) = l.take k := by
  rw [← List.take_take, List.take_length]

/-- When the stored size is nonnegative, the slice stop is the minimum
of the size and the length. -/
theorem pySliceStop_of_nonneg (len : Nat) (k : Int) (h : 0 ≤ k) :
    pySliceStop len k = min k.toNat len := by
  unfold pySliceStop
  split_ifs
  all_goals omega

/-- When the stored size is negative, the slice stop is the length plus
the (negative) size, clamped at zero. -/
theorem pySliceStop_of_neg (len : Nat) (k : Int) (h : k < 0) :
    pySliceStop len k = (k + len).toNat := by
  unfold pySliceStop
  split_ifs
  all_goals omega

/-- For a nonnegative stored size, `predict` is a plain `take`. -/
theorem predict_eq_take_of_nonneg (m : DummyEmbeddingDimensionalityReductionModel)
    (e : List α) (h : 0 ≤ m.reduced_embedding_size) :
    m.predict e = e.take m.reduced_embedding_size.toNat := by
  unfold DummyEmbeddingDimensionalityReductionModel.predict
  rw [pySliceStop_of_nonneg _ _ h, take_min_len]

/-- Scenario from the specification: `target_length = -1` on a
three-element input keeps the first two elements (Python slice
semantics), a value the min law of C1 cannot describe. -/
theorem predict_neg_scenario :
    (DummyEmbeddingDimensionalityReductionModel.mk (-1)).predict
      ([1.0, 2.0, 3.0] : List Float) = [1.0, 2.0] := rfl

/-- C1 counterexample: the claimed law fails for a negative stored size.
With `reduced_embedding_size = -1` and input `[1.0, 2.0, 3.0]`, the
output has length `2`, while `min(-1, 3) = -1`. -/
theorem predict_length_min_counterexample :
    ¬ ((((DummyEmbeddingDimensionalityReductionModel.mk (-1)).predict
          ([1.0, 2.0, 3.0] : List Float)).length : Int)
        = min (-1 : Int) (([1.0, 2.0, 3.0] : List Float).length : Int)) := by
  decide

/-- C1 (amended): for every nonnegative `target_length` and every input
embedding, the length of `predict(embedding)` equals
`min(target_length, length(embedding))`. -/
theorem predict_length_eq_min (m : DummyEmbeddingDimensionalityReductionModel)
    (e : List α) (h : 0 ≤ m.reduced_embedding_size) :
    ((m.predict e).length : Int)
      = min m.reduced_embedding_size (e.length : Int) := by
  rw [predict_eq_take_of_nonneg m e h, List.length_take]
  omega

/-- Witness for C1 at `target_length = 3` and a five-element input. -/
theorem predict_length_eq_min_witness :
    (0 : Int) ≤ (DummyEmbeddingDimensionalityReductionModel.mk 3).reduced_embedding_size ∧
    ((((DummyEmbeddingDimensionalityReductionModel.mk 3).predict
        ([1.0, 2.0, 3.0, 4.0, 5.0] : List Float)).length : Int)
      = min (DummyEmbeddingDimensionalityReductionModel.mk 3).reduced_embedding_size
          (([1.0, 2.0, 3.0, 4.0, 5.0] : List Float).length : Int)) :=
  ⟨by decide, predict_length_eq_min _ _ (by decide)⟩

/-- C2: for every index `i` below `min(target_length, length(embedding))`,
the `i`-th element of `predict(embedding)` equals the `i`-th element of
`embedding`; order is preserved. -/
theorem predict_getElem_eq (m : DummyEmbeddingDimensionalityReductionModel)
    (e : List α) (i : Nat)
    (h : (i : Int) < min m.reduced_embedding_size (e.length : Int)) :
    (m.predict e)[i]? = e[i]? := by
  have h0 : 0 ≤ m.reduced_embedding_size := by omega
  rw [predict_eq_take_of_nonneg m e h0]
  exact List.getElem?_take_of_lt (by omega)

/-- Witness for C2 at `target_length = 3`, index `1`. -/
theorem predict_getElem_eq_witness :
    ((1 : Nat) : Int) < min (DummyEmbeddingDimensionalityReductionModel.mk 3).reduced_embedding_size
        (([1.0, 2.0, 3.0, 4.0, 5.0] : List Float).length : Int) ∧
    ((DummyEmbeddingDimensionalityReductionModel.mk 3).predict
        ([1.0, 2.0, 3.0, 4.0, 5.0] : List Float))[1]?
      = ([1.0, 2.0, 3.0, 4.0, 5.0] : List Float)[1]? :=
  ⟨by decide, predict_getElem_eq _ _ 1 (by decide)⟩

/-- C3: calling `dispose` on a constructed instance does not succeed:
because the source declares `dispose` without a `self` parameter, the
bound call `m.dispose()` passes one positional argument to a function
that accepts none, and Python raises a `TypeError`. The state is left
unchanged, so `predict` afterwards still returns its usual output. -/
theorem dispose_call_raises (m : DummyEmbeddingDimensionalityReductionModel) :
    (callDispose m).2 = Except.error "TypeError" ∧ (callDispose m).1 = m :=
  ⟨rfl, rfl⟩

/-- C4: construction stores any integer argument, including zero and
negative values, with no validation. -/
theorem mk_stores_argument (n : Int) :
    (DummyEmbeddingDimensionalityReductionModel.mk n).reduced_embedding_size = n :=
  rfl

/-- C5: whenever the input length is at most `target_length`, `predict`
returns the full input unchanged. -/
theorem predict_full_input (m : DummyEmbeddingDimensionalityReductionModel)
    (e : List α) (h : (e.length : Int) ≤ m.reduced_embedding_size) :
    m.predict e = e := by
  have h0 : 0 ≤ m.reduced_embedding_size := by omega
  rw [predict_eq_take_of_nonneg m e h0]
  exact List.take_of_length_le (by omega)

/-- Witness for C5: `target_length = 10`, input `[1.0, 2.0]`. -/
theorem predict_full_input_witness :
    ((([1.0, 2.0] : List Float).length : Int)
        ≤ (DummyEmbeddingDimensionalityReductionModel.mk 10).reduced_embedding_size) ∧
    (DummyEmbeddingDimensionalityReductionModel.mk 10).predict
        ([1.0, 2.0] : List Float) = [1.0, 2.0] :=
  ⟨by decide, predict_full_input _ _ (by decide)⟩

/-- C6: `predict` is a pure function of the input embedding and the
stored `target_length`: two calls with equal inputs on instances with
the same stored size return equal outputs (and the embedding of the
method as a function witnesses that the input list is never mutated). -/
theorem predict_deterministic (m₁ m₂ : DummyEmbeddingDimensionalityReductionModel)
    (e₁ e₂ : List α)
    (hm : m₁.reduced_embedding_size = m₂.reduced_embedding_size)
    (he : e₁ = e₂) : m₁.predict e₁ = m₂.predict e₂ := by
  cases m₁
  cases m₂
  cases hm
  cases he
  rfl

/-- Witness for C6 at two separately constructed instances with
`target_length = 3` and equal inputs. -/
theorem predict_deterministic_witness :
    (DummyEmbeddingDimensionalityReductionModel.mk 3).reduced_embedding_size
        = (DummyEmbeddingDimensionalityReductionModel.mk 3).reduced_embedding_size ∧
    ([1.0, 2.0, 3.0] : List Float) = [1.0, 2.0, 3.0] ∧
    (DummyEmbeddingDimensionalityReductionModel.mk 3).predict ([1.0, 2.0, 3.0] : List Float)
      = (DummyEmbeddingDimensionalityReductionModel.mk 3).predict ([1.0, 2.0, 3.0] : List Float) :=
  ⟨rfl, rfl, predict_deterministic _ _ _ _ rfl rfl⟩

/-- C7: `build` is a no-op: any number of `build` calls leaves the
state unchanged and does not change the output of `predict` on the same
input, regardless of interleaving. -/
theorem build_noop (m : DummyEmbeddingDimensionalityReductionModel)
    (k : Nat) (e : List α) :
    build^[k] m = m ∧ (build^[k] m).predict e = m.predict e := by
  have hb : build^[k] m = m := Function.iterate_fixed rfl k
  exact ⟨hb, by rw [hb]⟩

/-- C8: every operation preserves the whole instance state; in
particular `reduced_embedding_size` is never modified after
construction, and the state has no other component. -/
theorem state_preserved (m : DummyEmbeddingDimensionalityReductionModel) :
    build m = m ∧ predictState m = m ∧ (callDispose m).1 = m ∧
    (build m).reduced_embedding_size = m.reduced_embedding_size ∧
    (predictState m).reduced_embedding_size = m.reduced_embedding_size ∧
    ((callDispose m).1).reduced_embedding_size = m.reduced_embedding_size :=
  ⟨rfl, rfl, rfl, rfl, rfl, rfl⟩

/-- C9: with a negative stored size, `predict` returns the input with
its last `|target_length|` elements dropped: the leading part of length
`max(0, length(embedding) + target_length)`, realised by `Int.toNat`. -/
theorem predict_neg (m : DummyEmbeddingDimensionalityReductionModel)
    (e : List α) (h : m.reduced_embedding_size < 0) :
    m.predict e = e.take ((e.length : Int) + m.reduced_embedding_size).toNat := by
  unfold DummyEmbeddingDimensionalityReductionModel.predict
  rw [pySliceStop_of_neg _ _ h]
  congr 1
  omega

/-- Witness for C9: `target_length = -1`, input `[1.0, 2.0, 3.0]`. -/
theorem predict_neg_witness :
    (DummyEmbeddingDimensionalityReductionModel.mk (-1)).reduced_embedding_size < 0 ∧
    (DummyEmbeddingDimensionalityReductionModel.mk (-1)).predict
        ([1.0, 2.0, 3.0] : List Float)
      = ([1.0, 2.0, 3.0] : List Float).take
          ((([1.0, 2.0, 3.0] : List Float).length : Int)
            + (DummyEmbeddingDimensionalityReductionModel.mk (-1)).reduced_embedding_size).toNat :=
  ⟨by decide, predict_neg _ _ (by decide)⟩

/-- C10: `predict` is idempotent for a nonnegative stored size:
truncating an already truncated embedding changes nothing. -/
theorem predict_idempotent (m : DummyEmbeddingDimensionalityReductionModel)
    (e : List α) (h : 0 ≤ m.reduced_embedding_size) :
    m.predict (m.predict e) = m.predict e := by
  rw [predict_eq_take_of_nonneg m e h, predict_eq_take_of_nonneg m _ h,
    List.take_take, min_self]

/-- Witness for C10 at `target_length = 3` and a five-element input. -/
theorem predict_idempotent_witness :
    (0 : Int) ≤ (DummyEmbeddingDimensionalityReductionModel.mk 3).reduced_embedding_size ∧
    (DummyEmbeddingDimensionalityReductionModel.mk 3).predict
        ((DummyEmbeddingDimensionalityReductionModel.mk 3).predict
          ([1.0, 2.0, 3.0, 4.0, 5.0] : List Float))
      = (DummyEmbeddingDimensionalityReductionModel.mk 3).predict
          ([1.0, 2.0, 3.0, 4.0, 5.0] : List Float) :=
  ⟨by decide, predict_idempotent _ _ (by decide)⟩
